import Mathlib

/-!
# tringi/SQLite: a shallow embedding of the C++ wrapper

The wrapper (`SQLite.hpp`, `SQLite.cpp`, `SQLite.tcc`) is a thin layer over the
C interface of the SQLite engine.  The engine is an external collaborator, so it
appears here as a parameter: an `Engine σ` gives, for every engine function the
wrapper calls, its answer and its effect on an engine state of type `σ`.

* Functions of the engine that change it (`sqlite3_open16`, `sqlite3_close`,
  `sqlite3_prepare16_v2`, `sqlite3_finalize`, `sqlite3_step`, `sqlite3_reset`,
  `sqlite3_bind_*`) take the engine state and return the new one; every such call
  is also appended to a trace, in call order.
* Functions that the wrapper only uses from `const` members or while building an
  exception (`sqlite3_column_*`, `sqlite3_data_count`, `sqlite3_errmsg`, ...)
  are observers of the engine state.
* A C++ member function that may throw returns an `Except`, together with the
  object it ran on and the world after the call: the object and the world are
  kept when the function throws, as they are in C++.
* `int` is a 32-bit two's complement integer: increments and narrowing casts
  wrap (`wrapInt32`), `long long` is 64-bit (`wrapInt64`).
-/

namespace SQLiteWrapper

/-! ## Machine values -/

/-- Engine handle (`sqlite3 *` or `sqlite3_stmt *`); `0` is `nullptr`. -/
abbrev Handle := Nat

/-- Wide string (`std::wstring`): a sequence of `wchar_t` code units. -/
abbrev WString := List Nat

/-- Byte sequence (`std::vector <unsigned char>`). -/
abbrev Bytes := List (Fin 256)

/-- Value of type `double`, kept as its bit pattern; no arithmetic is done on it. -/
abbrev Double := Nat

/-- Value of type `long double`, kept as its bit pattern. -/
abbrev LongDouble := Nat

/-- Smallest `int`. -/
def INT_MIN : Int := -2147483648

/-- Largest `int`. -/
def INT_MAX : Int := 2147483647

/-- Result of storing the integer `x` in an `int` (32-bit two's complement). -/
def wrapInt32 (x : Int) : Int := (x + 2147483648) % 4294967296 - 2147483648

/-- Result of storing the integer `x` in a `long long` (64-bit two's complement). -/
def wrapInt64 (x : Int) : Int :=
  (x + 9223372036854775808) % 18446744073709551616 - 9223372036854775808

/-- Size of `wchar_t` in bytes: the wrapper hands `wchar_t` buffers to the UTF-16
functions of the engine, so a `wchar_t` is one UTF-16 code unit. -/
def SIZEOF_WCHAR_T : Nat := 2

/-- The characters a `const wchar_t *` reader sees: everything before the first NUL. -/
def c_str (w : WString) : WString := w.takeWhile (fun c => c != 0)

/-! ## Engine constants

The wrapper includes the header `sqlite3.h` of the engine, which is not part of the
repository; the constants it uses have the values that header gives them. -/

/-- Status `SQLITE_OK`. -/
def SQLITE_OK : Int := 0

/-- Status `SQLITE_MISUSE`. -/
def SQLITE_MISUSE : Int := 21

/-- Status `SQLITE_ROW`. -/
def SQLITE_ROW : Int := 100

/-- Status `SQLITE_DONE`. -/
def SQLITE_DONE : Int := 101

/-- Column type `SQLITE_BLOB`. -/
def SQLITE_BLOB : Int := 4

/-- Column type `SQLITE_NULL`. -/
def SQLITE_NULL : Int := 5

/-! ## The engine and the world -/

/-- One state-changing call into the engine, with its arguments. A pointer argument
is given by the memory it points to (`none` for a null pointer). -/
inductive Call where
  | open16 (filename : WString)
  | close (db : Handle)
  | prepare16_v2 (db : Handle) (query : WString)
  | finalize (stmt : Handle)
  | step (stmt : Handle)
  | reset (stmt : Handle)
  | bind_int (stmt : Handle) (pos : Int) (value : Int)
  | bind_double (stmt : Handle) (pos : Int) (value : Double)
  | bind_int64 (stmt : Handle) (pos : Int) (value : Int)
  | bind_text16 (stmt : Handle) (pos : Int) (data : WString) (nbytes : Int)
  | bind_blob (stmt : Handle) (pos : Int) (data : Option Bytes) (n : Int)
  | bind_null (stmt : Handle) (pos : Int)
  deriving DecidableEq, Repr

/-- The engine, as far as the wrapper uses it. State-changing functions return their
status (and out-parameter) with the new engine state; the others observe the state. -/
structure Engine (σ : Type) where
  open16 : σ → WString → Int × Handle × σ
  close : σ → Handle → Int × σ
  prepare16_v2 : σ → Handle → WString → Int × Handle × σ
  finalize : σ → Handle → Int × σ
  step : σ → Handle → Int × σ
  reset : σ → Handle → Int × σ
  bind_int : σ → Handle → Int → Int → Int × σ
  bind_double : σ → Handle → Int → Double → Int × σ
  bind_int64 : σ → Handle → Int → Int → Int × σ
  bind_text16 : σ → Handle → Int → WString → Int → Int × σ
  bind_blob : σ → Handle → Int → Option Bytes → Int → Int × σ
  bind_null : σ → Handle → Int → Int × σ
  sql : σ → Handle → Option String
  db_handle : σ → Handle → Handle
  errmsg : σ → Handle → String
  errcode : σ → Handle → Int
  extended_errcode : σ → Handle → Int
  data_count : σ → Handle → Int
  column_count : σ → Handle → Int
  column_type : σ → Handle → Int → Int
  column_name16 : σ → Handle → Int → Option WString
  column_int : σ → Handle → Int → Int
  column_double : σ → Handle → Int → Double
  column_int64 : σ → Handle → Int → Int
  column_text16 : σ → Handle → Int → Option WString
  column_bytes16 : σ → Handle → Int → Int
  column_blob : σ → Handle → Int → Option Bytes
  column_bytes : σ → Handle → Int → Int
  changes : σ → Handle → Int

/-- The world outside the wrapper objects: the engine state and the trace of the
state-changing engine calls made so far, oldest first. -/
structure World (σ : Type) where
  eng : σ
  trace : List Call

/-- The world after the engine call `c` that left the engine in state `st`. -/
def World.call {σ : Type} (w : World σ) (c : Call) (st : σ) : World σ :=
  { eng := st, trace := w.trace ++ [c] }

/-! ## Connection (`class SQLite`) -/

/-- Data member of `class SQLite`: `sqlite3 * db`. -/
structure SQLite where
  db : Handle
  deriving DecidableEq, Repr

/-- A newly created connection: the member initialiser is `db = nullptr`, and the
class declares no constructor. -/
def SQLite.create : SQLite := { db := 0 }

/-- `void SQLite::close ()`. -/
def SQLite.close {σ : Type} (E : Engine σ) (c : SQLite) (w : World σ) : SQLite × World σ :=
  if c.db ≠ 0 then
    let r := E.close w.eng c.db
    ({ db := 0 }, w.call (Call.close c.db) r.2)
  else
    (c, w)

/-- `bool SQLite::open (const std::wstring & filename)`. The function has no `throw`
and calls only the C interface of the engine and `close`, so it has no exceptional
result. -/
def SQLite.open {σ : Type} (E : Engine σ) (filename : WString) (c : SQLite) (w : World σ) :
    Bool × SQLite × World σ :=
  let r := E.open16 w.eng (c_str filename)
  let w1 := w.call (Call.open16 (c_str filename)) r.2.2
  if r.1 = SQLITE_OK then
    let cw := SQLite.close E c w1
    (true, { db := r.2.1 }, cw.2)
  else
    (false, c, w1)

/-- Destruction of a connection. `class SQLite` declares no destructor, so the
implicit one runs: it destroys the member `db`, a raw pointer, which calls nothing. -/
def SQLite.destroy {σ : Type} (_E : Engine σ) (_c : SQLite) (w : World σ) : World σ := w

/-! ## Exceptions -/

/-- The platform function `WideCharToMultiByte (CP_UTF8, 0, w, len, buf, n, NULL, NULL)`
as `w2a` uses it: `size w` is its result when called without a buffer, and
`convert w n` is its result and the buffer contents when called with a buffer of
`n` characters. -/
structure Platform where
  size : WString → Nat
  convert : WString → Nat → Nat × String

/-- `std::string w2a (const std::wstring & w)` of the anonymous namespace. -/
def w2a (P : Platform) (w : WString) : String :=
  let n := P.size w
  if n ≠ 0 then
    let r := P.convert w n
    if r.1 ≠ 0 then r.2 else ""
  else
    ""

/-- `class SQLite::Exception`. The C++ object holds the composed text (`what`) and
the members `error`, `extended` and `query`; here the two parts the text is composed
of, the operation tag `op` and the engine message `message`, are kept apart. -/
structure Exception where
  op : String
  message : String
  error : Int
  extended : Int
  query : String
  deriving DecidableEq, Repr

/-- Text of the exception as `what ()` gives it: the text its constructors compose,
read as a C string, so up to the first NUL character. -/
def Exception.what (e : Exception) : String :=
  String.mk ((e.op ++ ": " ++ e.message ++ " IN " ++ e.query).data.takeWhile
    (fun ch => ch != Char.ofNat 0))

/-- What a member function of the wrapper can throw. -/
inductive Exn where
  | sqlite (e : Exception)
  | bad_alloc
  deriving DecidableEq, Repr

/-- `std::string sql_text (sqlite3_stmt * stmt)` of the anonymous namespace. -/
def sql_text {σ : Type} (E : Engine σ) (st : σ) (stmt : Handle) : String :=
  match E.sql st stmt with
  | some sz => sz
  | none => "--empty--"

/-- `SQLite::Exception::Exception (const std::string & op, sqlite3 * db, std::string q)`. -/
def Exception.of_db {σ : Type} (E : Engine σ) (st : σ) (op : String) (db : Handle)
    (q : String) : Exception :=
  { op := op
    message := E.errmsg st db
    error := E.errcode st db
    extended := E.extended_errcode st db
    query := q }

/-- `SQLite::Exception::Exception (const std::string & op, sqlite3_stmt * stmt)`. -/
def Exception.of_stmt {σ : Type} (E : Engine σ) (st : σ) (op : String) (stmt : Handle) :
    Exception :=
  { op := op
    message := E.errmsg st (E.db_handle st stmt)
    error := E.errcode st (E.db_handle st stmt)
    extended := E.extended_errcode st (E.db_handle st stmt)
    query := sql_text E st stmt }

/-! ## Statement (`class SQLite::Statement`) -/

/-- Data members of `class SQLite::Statement`: `sqlite3_stmt * stmt` and `int bi`. -/
structure Statement where
  stmt : Handle
  bi : Int
  deriving DecidableEq, Repr

deriving instance DecidableEq for Except

/-- Result of a member function of `Statement` that may throw: the value returned or
the exception thrown, the `Statement` object after the call, the world after it. -/
abbrev Result (σ : Type) (α : Type) := Except Exn α × Statement × World σ

/-- `SQLite::Statement::Statement (sqlite3_stmt * stmt)`. -/
def Statement.ofHandle (stmt : Handle) : Statement := { stmt := stmt, bi := 0 }

/-- `SQLite::Statement::~Statement ()`. -/
def Statement.destroy {σ : Type} (E : Engine σ) (s : Statement) (w : World σ) : World σ :=
  w.call (Call.finalize s.stmt) (E.finalize w.eng s.stmt).2

/-- `bool SQLite::Statement::empty () const`. -/
def Statement.empty {σ : Type} (E : Engine σ) (s : Statement) (st : σ) : Bool :=
  (E.sql st s.stmt).isNone

/-- `void SQLite::Statement::reset ()`. -/
def Statement.reset {σ : Type} (E : Engine σ) (s : Statement) (w : World σ) : Result σ Unit :=
  let s1 : Statement := { s with bi := 0 }
  let r := E.reset w.eng s.stmt
  let w1 := w.call (Call.reset s.stmt) r.2
  if r.1 ≠ SQLITE_OK then
    (.error (.sqlite (Exception.of_stmt E w1.eng "reset" s.stmt)), s1, w1)
  else
    (.ok (), s1, w1)

/-- `bool SQLite::Statement::next ()`. -/
def Statement.next {σ : Type} (E : Engine σ) (s : Statement) (w : World σ) : Result σ Bool :=
  let r := E.step w.eng s.stmt
  let w1 := w.call (Call.step s.stmt) r.2
  if r.1 = SQLITE_ROW then
    (.ok true, s, w1)
  else if r.1 = SQLITE_DONE then
    match Statement.reset E s w1 with
    | (.error e, s2, w2) => (.error e, s2, w2)
    | (.ok _, s2, w2) => (.ok false, s2, w2)
  else
    (.error (.sqlite (Exception.of_stmt E w1.eng "step" s.stmt)), s, w1)

/-- `int SQLite::Statement::width () const`. -/
def Statement.width {σ : Type} (E : Engine σ) (s : Statement) (st : σ) : Int :=
  let n := E.data_count st s.stmt
  if n ≠ 0 then n else E.column_count st s.stmt

/-- `SQLite::Type SQLite::Statement::type (int i) const`, as the number of the enumerator. -/
def Statement.type {σ : Type} (E : Engine σ) (s : Statement) (st : σ) (i : Int) : Int :=
  E.column_type st s.stmt i

/-- `std::wstring SQLite::Statement::name (int i) const`. -/
def Statement.name {σ : Type} (E : Engine σ) (s : Statement) (st : σ) (i : Int) :
    Except Exn WString :=
  match E.column_name16 st s.stmt i with
  | some psz => .ok (c_str psz)
  | none => .error .bad_alloc

/-- `bool SQLite::Statement::null (int i) const`. -/
def Statement.null {σ : Type} (E : Engine σ) (s : Statement) (st : σ) (i : Int) : Bool :=
  decide (E.column_type st s.stmt i = SQLITE_NULL)

/-- `SQLite::Statement::get <int> (int column) const`. -/
def Statement.get_int {σ : Type} (E : Engine σ) (s : Statement) (st : σ) (column : Int) : Int :=
  E.column_int st s.stmt column

/-- `SQLite::Statement::get <double> (int column) const`. -/
def Statement.get_double {σ : Type} (E : Engine σ) (s : Statement) (st : σ) (column : Int) :
    Double :=
  E.column_double st s.stmt column

/-- `SQLite::Statement::get <long long> (int column) const`. -/
def Statement.get_int64 {σ : Type} (E : Engine σ) (s : Statement) (st : σ) (column : Int) :
    Int :=
  E.column_int64 st s.stmt column

/-- `SQLite::Statement::get <std::wstring> (int column) const`; the division of two
`int`s truncates. -/
def Statement.get_wstring {σ : Type} (E : Engine σ) (s : Statement) (st : σ) (column : Int) :
    WString :=
  match E.column_text16 st s.stmt column with
  | some data => data.take (Int.tdiv (E.column_bytes16 st s.stmt column) 2).toNat
  | none => []

/-- `SQLite::Statement::get <std::vector <unsigned char>> (int column) const`. -/
def Statement.get_blob {σ : Type} (E : Engine σ) (s : Statement) (st : σ) (column : Int) :
    Bytes :=
  match E.column_blob st s.stmt column with
  | some data => data.take (E.column_bytes st s.stmt column).toNat
  | none => []

/-- Loop of `get <T> (const std::wstring & column)`:
`for (int i = 0; i != n; ++i) { if (column == this->name (i)) return this->get <T> (i); }`
followed by the `throw`. The loop is left without a match when `i == n`; for the
32-bit `i` that is after `(n - i) mod 2^32` more increments, and the first argument
counts these down: it is 0 exactly when `i == n`, and one less after `++i`
(`loop_count_zero`, `loop_count_succ`). `getT` is the specialisation `get <T> (int)`. -/
def Statement.get_name_loop {σ α : Type} (E : Engine σ) (getT : Statement → σ → Int → α)
    (column : WString) (s : Statement) (st : σ) : Nat → Int → Except Exn α
  | 0, _ => .error (.sqlite (Exception.of_stmt E st "no such column" s.stmt))
  | k + 1, i =>
    match Statement.name E s st i with
    | .error e => .error e
    | .ok nm =>
      if column = nm then .ok (getT s st i)
      else Statement.get_name_loop E getT column s st k (wrapInt32 (i + 1))

/-- `template <typename T> T get (const std::wstring & column) const`: `n` is
`this->width ()` and the loop starts at `i = 0`. -/
def Statement.get_name {σ α : Type} (E : Engine σ) (getT : Statement → σ → Int → α)
    (column : WString) (s : Statement) (st : σ) : Except Exn α :=
  let n := Statement.width E s st
  Statement.get_name_loop E getT column s st ((n - 0) % 4294967296).toNat 0

/-! ### Binding -/

/-- Common end of every `bind` overload, once the engine has answered `rc`:
`if (rc != SQLITE_OK) throw SQLite::Exception ("bind", this->stmt);`. -/
def Statement.bind_check {σ : Type} (E : Engine σ) (rc : Int) (s : Statement) (w : World σ) :
    Result σ Unit :=
  if rc ≠ SQLITE_OK then
    (.error (.sqlite (Exception.of_stmt E w.eng "bind" s.stmt)), s, w)
  else
    (.ok (), s, w)

/-- `void SQLite::Statement::bind (int value)`. -/
def Statement.bind_int {σ : Type} (E : Engine σ) (value : Int) (s : Statement) (w : World σ) :
    Result σ Unit :=
  let bi := wrapInt32 (s.bi + 1)
  let r := E.bind_int w.eng s.stmt bi value
  Statement.bind_check E r.1 { s with bi := bi } (w.call (Call.bind_int s.stmt bi value) r.2)

/-- `void SQLite::Statement::bind (double value)`. -/
def Statement.bind_double {σ : Type} (E : Engine σ) (value : Double) (s : Statement)
    (w : World σ) : Result σ Unit :=
  let bi := wrapInt32 (s.bi + 1)
  let r := E.bind_double w.eng s.stmt bi value
  Statement.bind_check E r.1 { s with bi := bi } (w.call (Call.bind_double s.stmt bi value) r.2)

/-- `void SQLite::Statement::bind (long long value)`. -/
def Statement.bind_int64 {σ : Type} (E : Engine σ) (value : Int) (s : Statement)
    (w : World σ) : Result σ Unit :=
  let bi := wrapInt32 (s.bi + 1)
  let r := E.bind_int64 w.eng s.stmt bi value
  Statement.bind_check E r.1 { s with bi := bi } (w.call (Call.bind_int64 s.stmt bi value) r.2)

/-- `void SQLite::Statement::bind (unsigned long long value)`: the value goes through
the cast `(long long) value`. -/
def Statement.bind_uint64 {σ : Type} (E : Engine σ) (value : Int) (s : Statement)
    (w : World σ) : Result σ Unit :=
  let bi := wrapInt32 (s.bi + 1)
  let r := E.bind_int64 w.eng s.stmt bi (wrapInt64 value)
  Statement.bind_check E r.1 { s with bi := bi }
    (w.call (Call.bind_int64 s.stmt bi (wrapInt64 value)) r.2)

/-- `void SQLite::Statement::bind (const std::wstring & value)`: the length is
`(int) (value.size () * sizeof (wchar_t))`. -/
def Statement.bind_wstring {σ : Type} (E : Engine σ) (value : WString) (s : Statement)
    (w : World σ) : Result σ Unit :=
  let bi := wrapInt32 (s.bi + 1)
  let n := wrapInt32 (value.length * SIZEOF_WCHAR_T)
  let r := E.bind_text16 w.eng s.stmt bi value n
  Statement.bind_check E r.1 { s with bi := bi }
    (w.call (Call.bind_text16 s.stmt bi value n) r.2)

/-- The static array `empty` of `bind (const std::vector <unsigned char> &)`. -/
def Statement.bind_blob_empty : Bytes := [0]

/-- `void SQLite::Statement::bind (const std::vector <unsigned char> & value)`: the
pointer is `value.empty () ? empty : value.data ()`, the length `(int) value.size ()`. -/
def Statement.bind_blob {σ : Type} (E : Engine σ) (value : Bytes) (s : Statement)
    (w : World σ) : Result σ Unit :=
  let bi := wrapInt32 (s.bi + 1)
  let data : Option Bytes := some (if value.isEmpty then Statement.bind_blob_empty else value)
  let n := wrapInt32 value.length
  let r := E.bind_blob w.eng s.stmt bi data n
  Statement.bind_check E r.1 { s with bi := bi } (w.call (Call.bind_blob s.stmt bi data n) r.2)

/-- `void SQLite::Statement::bind (std::nullptr_t)`. -/
def Statement.bind_null {σ : Type} (E : Engine σ) (s : Statement) (w : World σ) :
    Result σ Unit :=
  let bi := wrapInt32 (s.bi + 1)
  let r := E.bind_null w.eng s.stmt bi
  Statement.bind_check E r.1 { s with bi := bi } (w.call (Call.bind_null s.stmt bi) r.2)

/-- `void bind (unsigned int v) { this->bind ((long long) v); }`. -/
def Statement.bind_uint {σ : Type} (E : Engine σ) (v : Int) (s : Statement) (w : World σ) :
    Result σ Unit :=
  Statement.bind_int64 E (wrapInt64 v) s w

/-- `void bind (long v) { this->bind ((long long) v); }`. -/
def Statement.bind_long {σ : Type} (E : Engine σ) (v : Int) (s : Statement) (w : World σ) :
    Result σ Unit :=
  Statement.bind_int64 E (wrapInt64 v) s w

/-- `void bind (unsigned long v) { this->bind ((long long) v); }`. -/
def Statement.bind_ulong {σ : Type} (E : Engine σ) (v : Int) (s : Statement) (w : World σ) :
    Result σ Unit :=
  Statement.bind_int64 E (wrapInt64 v) s w

/-- `void bind (long double v) { this->bind ((double) v); }`; `toDouble` is the
conversion `(double) v` of the platform. -/
def Statement.bind_long_double {σ : Type} (E : Engine σ) (toDouble : LongDouble → Double)
    (v : LongDouble) (s : Statement) (w : World σ) : Result σ Unit :=
  Statement.bind_double E (toDouble v) s w

/-- One argument of a call of `bind`, tagged with its C++ type, which selects the
overload. The `long double` argument comes with the conversion to `double`. -/
inductive BindArg where
  | int (v : Int)
  | double (v : Double)
  | long_long (v : Int)
  | unsigned_long_long (v : Int)
  | wstring (v : WString)
  | blob (v : Bytes)
  | nullptr
  | unsigned_int (v : Int)
  | long (v : Int)
  | unsigned_long (v : Int)
  | long_double (toDouble : LongDouble → Double) (v : LongDouble)

/-- The single-value call `this->bind (a)`: overload resolution on the type of `a`. -/
def Statement.bind1 {σ : Type} (E : Engine σ) (a : BindArg) (s : Statement) (w : World σ) :
    Result σ Unit :=
  match a with
  | .int v => Statement.bind_int E v s w
  | .double v => Statement.bind_double E v s w
  | .long_long v => Statement.bind_int64 E v s w
  | .unsigned_long_long v => Statement.bind_uint64 E v s w
  | .wstring v => Statement.bind_wstring E v s w
  | .blob v => Statement.bind_blob E v s w
  | .nullptr => Statement.bind_null E s w
  | .unsigned_int v => Statement.bind_uint E v s w
  | .long v => Statement.bind_long E v s w
  | .unsigned_long v => Statement.bind_ulong E v s w
  | .long_double f v => Statement.bind_long_double E f v s w

/-- The call `this->bind (args...)` for an argument list of any length: no argument
is the private `void bind () {}`, one argument is the overload for its type, two or
more are `template <typename A, typename B, typename... Args> void bind (A a, B b, Args... args)`,
which calls `bind (a)`, `bind (b)` and `bind (args...)`. An exception leaves at once. -/
def Statement.bind {σ : Type} (E : Engine σ) : List BindArg → Statement → World σ →
    Result σ Unit
  | [], s, w => (.ok (), s, w)
  | [a], s, w => Statement.bind1 E a s w
  | a :: b :: args, s, w =>
    match Statement.bind1 E a s w with
    | (.error e, s1, w1) => (.error e, s1, w1)
    | (.ok _, s1, w1) =>
      match Statement.bind1 E b s1 w1 with
      | (.error e, s2, w2) => (.error e, s2, w2)
      | (.ok _, s2, w2) => Statement.bind E args s2 w2

/-- `template <typename R, typename... Args> R query (Args... args)` of `Statement`;
`getR` is the specialisation `get <R> (int)`. -/
def Statement.query {σ α : Type} (E : Engine σ) (getR : Statement → σ → Int → α)
    (args : List BindArg) (s : Statement) (w : World σ) : Result σ α :=
  match Statement.reset E s w with
  | (.error e, s1, w1) => (.error e, s1, w1)
  | (.ok _, s1, w1) =>
    match Statement.bind E args s1 w1 with
    | (.error e, s2, w2) => (.error e, s2, w2)
    | (.ok _, s2, w2) =>
      match Statement.next E s2 w2 with
      | (.error e, s3, w3) => (.error e, s3, w3)
      | (.ok true, s3, w3) => (.ok (getR s3 w3.eng 0), s3, w3)
      | (.ok false, s3, w3) =>
        (.error (.sqlite (Exception.of_stmt E w3.eng "no data" s3.stmt)), s3, w3)

/-! ## Connection: statements -/

/-- `SQLite::Statement SQLite::prepare (const std::wstring & query)`; the returned
object is built in place from `statement`. -/
def SQLite.prepare {σ : Type} (P : Platform) (E : Engine σ) (query : WString) (c : SQLite)
    (w : World σ) : Except Exn Statement × World σ :=
  let r := E.prepare16_v2 w.eng c.db (c_str query)
  let w1 := w.call (Call.prepare16_v2 c.db (c_str query)) r.2.2
  if r.1 = SQLITE_OK then
    (.ok (Statement.ofHandle r.2.1), w1)
  else
    (.error (.sqlite (Exception.of_db E w1.eng "prepare" c.db (w2a P query))), w1)

/-- Conversion of an `int` to `std::size_t` (64-bit). -/
def toSizeT (x : Int) : Nat := (x % 18446744073709551616).toNat

/-- `std::size_t SQLite::changes () const`. -/
def SQLite.changes {σ : Type} (E : Engine σ) (c : SQLite) (st : σ) : Nat :=
  toSizeT (E.changes st c.db)

/-- `template <typename R, typename... Args> R query (const std::wstring & string, Args... args)`
of `SQLite`: the temporary statement is destroyed at the end of the expression. -/
def SQLite.query {σ α : Type} (P : Platform) (E : Engine σ) (getR : Statement → σ → Int → α)
    (string : WString) (args : List BindArg) (c : SQLite) (w : World σ) :
    Except Exn α × World σ :=
  match SQLite.prepare P E string c w with
  | (.error e, w1) => (.error e, w1)
  | (.ok q, w1) =>
    let r := Statement.query E getR args q w1
    (r.1, Statement.destroy E r.2.1 r.2.2)

/-! ## Clients and specification vocabulary

The definitions of this section are not part of the wrapper: they are the client
programs and the readings of engine calls that the statements below talk about. -/

/-- The client program `s.bind (a1); ...; s.bind (aN);`: single-value calls in order;
an exception thrown by one of them leaves the sequence. -/
def Statement.bind_each {σ : Type} (E : Engine σ) : List BindArg → Statement → World σ →
    Result σ Unit
  | [], s, w => (.ok (), s, w)
  | a :: rest, s, w =>
    match Statement.bind1 E a s w with
    | (.error e, s1, w1) => (.error e, s1, w1)
    | (.ok _, s1, w1) => Statement.bind_each E rest s1 w1

/-- Parameter position of an engine bind call; `none` for any other call. -/
def Call.bindPos : Call → Option Int
  | .bind_int _ pos _ => some pos
  | .bind_double _ pos _ => some pos
  | .bind_int64 _ pos _ => some pos
  | .bind_text16 _ pos _ _ => some pos
  | .bind_blob _ pos _ _ => some pos
  | .bind_null _ pos => some pos
  | _ => none

/-- The engine bind call that carries the argument `a` to position `pos` of the
statement `stmt`, with the value conversions of the overload for the type of `a`. -/
def BindArg.call (stmt : Handle) (pos : Int) : BindArg → Call
  | .int v => .bind_int stmt pos v
  | .double v => .bind_double stmt pos v
  | .long_long v => .bind_int64 stmt pos v
  | .unsigned_long_long v => .bind_int64 stmt pos (wrapInt64 v)
  | .wstring v => .bind_text16 stmt pos v (wrapInt32 (v.length * SIZEOF_WCHAR_T))
  | .blob v =>
    .bind_blob stmt pos (some (if v.isEmpty then Statement.bind_blob_empty else v))
      (wrapInt32 v.length)
  | .nullptr => .bind_null stmt pos
  | .unsigned_int v => .bind_int64 stmt pos (wrapInt64 v)
  | .long v => .bind_int64 stmt pos (wrapInt64 v)
  | .unsigned_long v => .bind_int64 stmt pos (wrapInt64 v)
  | .long_double f v => .bind_double stmt pos (f v)

/-- The client step that follows a call `r` on a statement: `next ()` on the object
and in the world that the call left. -/
def Statement.then_next {σ α : Type} (E : Engine σ) (r : Result σ α) : Result σ Bool :=
  Statement.next E r.2.1 r.2.2

/-- State of the scripted engine: the statuses its next state-changing calls will
answer, and the column names of the row at hand. -/
structure Script where
  codes : List Int
  names : List WString
  deriving DecidableEq, Repr

/-- Next status of the script (`SQLITE_OK` once the script is used up), and the rest. -/
def Script.pop (st : Script) : Int × Script :=
  (st.codes.headD SQLITE_OK, { st with codes := st.codes.tail })

/-- An engine that answers every state-changing call with the next status of its
script; it opens handle 11 and compiles handle 21, every column holds the integer
`40 + column`, and three rows were changed. -/
def scriptedEngine : Engine Script where
  open16 st _ := (st.pop.1, 11, st.pop.2)
  close st _ := st.pop
  prepare16_v2 st _ _ := (st.pop.1, 21, st.pop.2)
  finalize st _ := st.pop
  step st _ := st.pop
  reset st _ := st.pop
  bind_int st _ _ _ := st.pop
  bind_double st _ _ _ := st.pop
  bind_int64 st _ _ _ := st.pop
  bind_text16 st _ _ _ _ := st.pop
  bind_blob st _ _ _ _ := st.pop
  bind_null st _ _ := st.pop
  sql _ _ := some "SELECT"
  db_handle _ _ := 11
  errmsg _ _ := "engine message"
  errcode _ _ := 1
  extended_errcode _ _ := 1
  data_count st _ := st.names.length
  column_count st _ := st.names.length
  column_type _ _ _ := 1
  column_name16 st _ i := if 0 ≤ i then st.names[i.toNat]? else none
  column_int _ _ i := 40 + i
  column_double _ _ _ := 0
  column_int64 _ _ i := 40 + i
  column_text16 _ _ _ := none
  column_bytes16 _ _ _ := 0
  column_blob _ _ _ := none
  column_bytes _ _ _ := 0
  changes _ _ := 3

/-- A value bound to a parameter of the parameter engine. -/
inductive Cell where
  | blob (b : Bytes)
  | null
  | other
  deriving DecidableEq, Repr

/-- State of the parameter engine: the bindings made so far, latest first. -/
abbrev ParamStore := List (Int × Cell)

/-- The value bound last at position `pos`; `null` when nothing was bound there. -/
def ParamStore.cell (st : ParamStore) (pos : Int) : Cell :=
  match st.find? (fun b => decide (b.1 = pos)) with
  | some b => b.2
  | none => .null

/-- Modelled from the spec: the engine, an external library, as the blob round trip
is stated for it. It runs a statement such as `SELECT ?1, ?2, ...`,
whose column `c` carries the value bound at position `c + 1`. Binding a blob with a
null data pointer binds NULL, with a negative length is refused, and otherwise
stores the first `n` bytes at the pointer. A column read returns the bound bytes;
for a zero-length blob the data pointer read is null when `nullForEmpty` is set. -/
def paramEngine (nullForEmpty : Bool) : Engine ParamStore where
  open16 st _ := (SQLITE_OK, 11, st)
  close st _ := (SQLITE_OK, st)
  prepare16_v2 st _ _ := (SQLITE_OK, 21, st)
  finalize st _ := (SQLITE_OK, st)
  step st _ := (SQLITE_ROW, st)
  reset st _ := (SQLITE_OK, st)
  bind_int st _ pos _ := (SQLITE_OK, (pos, Cell.other) :: st)
  bind_double st _ pos _ := (SQLITE_OK, (pos, Cell.other) :: st)
  bind_int64 st _ pos _ := (SQLITE_OK, (pos, Cell.other) :: st)
  bind_text16 st _ pos _ _ := (SQLITE_OK, (pos, Cell.other) :: st)
  bind_blob st _ pos data n :=
    match data with
    | none => (SQLITE_OK, (pos, Cell.null) :: st)
    | some mem =>
      if n < 0 then (SQLITE_MISUSE, st)
      else (SQLITE_OK, (pos, Cell.blob (mem.take n.toNat)) :: st)
  bind_null st _ pos := (SQLITE_OK, (pos, Cell.null) :: st)
  sql _ _ := some "SELECT ?"
  db_handle _ _ := 11
  errmsg _ _ := "engine message"
  errcode _ _ := 0
  extended_errcode _ _ := 0
  data_count _ _ := 0
  column_count _ _ := 0
  column_type st _ col :=
    match st.cell (col + 1) with
    | .blob _ => SQLITE_BLOB
    | .null => SQLITE_NULL
    | .other => 1
  column_name16 _ _ _ := none
  column_int _ _ _ := 0
  column_double _ _ _ := 0
  column_int64 _ _ _ := 0
  column_text16 _ _ _ := none
  column_bytes16 _ _ _ := 0
  column_blob st _ col :=
    match st.cell (col + 1) with
    | .blob b => if b.isEmpty && nullForEmpty then none else some b
    | _ => none
  column_bytes st _ col :=
    match st.cell (col + 1) with
    | .blob b => b.length
    | _ => 0
  changes _ _ := 0

/-! ## Connection: `open` and `close` -/

/-- C1: `SQLite::open` returns `true` exactly when `sqlite3_open16` reports `SQLITE_OK`
(it has no exceptional result). When it returns `true`, a handle held before has been
closed: the engine calls are the open call and then one `sqlite3_close` of that
handle, and the engine is in the state that this close left (with no handle held
before, in the state the open call left); the connection holds the handle just
opened. When it returns `false`, the connection is as before, the only engine call
made is the open call, and the engine is in the state the open call left, so nothing
was closed. -/
theorem open_contract {σ : Type} (E : Engine σ) (filename : WString) (c : SQLite)
    (w : World σ) :
    (SQLite.open E filename c w).1 = decide ((E.open16 w.eng (c_str filename)).1 = SQLITE_OK) ∧
    ((SQLite.open E filename c w).1 = true →
      (SQLite.open E filename c w).2.1.db = (E.open16 w.eng (c_str filename)).2.1 ∧
      (SQLite.open E filename c w).2.2.trace =
        w.trace ++ [Call.open16 (c_str filename)] ++
          (if c.db = 0 then [] else [Call.close c.db]) ∧
      (SQLite.open E filename c w).2.2.eng =
        (if c.db = 0 then (E.open16 w.eng (c_str filename)).2.2
          else (E.close (E.open16 w.eng (c_str filename)).2.2 c.db).2)) ∧
    ((SQLite.open E filename c w).1 = false →
      (SQLite.open E filename c w).2.1 = c ∧
      (SQLite.open E filename c w).2.2.trace = w.trace ++ [Call.open16 (c_str filename)] ∧
      (SQLite.open E filename c w).2.2.eng = (E.open16 w.eng (c_str filename)).2.2) := by
  by_cases h : (E.open16 w.eng (c_str filename)).1 = SQLITE_OK
  · by_cases hc : c.db = 0 <;> simp [SQLite.open, SQLite.close, World.call, h, hc]
  · simp [SQLite.open, World.call, h]

/-- Witness of `open_contract`: a successful open on a connection that holds handle 5
closes 5 (the open call and the close call each use up one status of the script) and
adopts handle 11; a failed open leaves handle 5 in place and uses up one status. -/
theorem open_contract_witness :
    ((SQLite.open scriptedEngine [100, 98] { db := 5 }
        { eng := ⟨[0, 0, 7], []⟩, trace := [] }).1 = true ∧
      (SQLite.open scriptedEngine [100, 98] { db := 5 }
        { eng := ⟨[0, 0, 7], []⟩, trace := [] }).2.1.db = 11 ∧
      (SQLite.open scriptedEngine [100, 98] { db := 5 }
        { eng := ⟨[0, 0, 7], []⟩, trace := [] }).2.2.trace =
        [Call.open16 [100, 98], Call.close 5] ∧
      (SQLite.open scriptedEngine [100, 98] { db := 5 }
        { eng := ⟨[0, 0, 7], []⟩, trace := [] }).2.2.eng = ⟨[7], []⟩) ∧
    ((SQLite.open scriptedEngine [100, 98] { db := 5 }
        { eng := ⟨[14, 0, 7], []⟩, trace := [] }).1 = false ∧
      (SQLite.open scriptedEngine [100, 98] { db := 5 }
        { eng := ⟨[14, 0, 7], []⟩, trace := [] }).2.1 = { db := 5 } ∧
      (SQLite.open scriptedEngine [100, 98] { db := 5 }
        { eng := ⟨[14, 0, 7], []⟩, trace := [] }).2.2.trace = [Call.open16 [100, 98]] ∧
      (SQLite.open scriptedEngine [100, 98] { db := 5 }
        { eng := ⟨[14, 0, 7], []⟩, trace := [] }).2.2.eng = ⟨[0, 7], []⟩) :=
  ⟨⟨by decide,
    (open_contract scriptedEngine [100, 98] { db := 5 }
      { eng := ⟨[0, 0, 7], []⟩, trace := [] }).2.1 (by decide)⟩,
   ⟨by decide,
    (open_contract scriptedEngine [100, 98] { db := 5 }
      { eng := ⟨[14, 0, 7], []⟩, trace := [] }).2.2 (by decide)⟩⟩

/-- C10, as the claim states its last part: destroying a connection that holds handle
5 does not put a close of handle 5 on the trace. -/
theorem destroy_does_not_close :
    ¬ (Call.close 5 ∈
      (SQLite.destroy scriptedEngine { db := 5 } { eng := ⟨[], []⟩, trace := [] }).trace) := by
  decide

/-- C10, amended: a connection is created with a null handle; `close` leaves the
handle null and makes exactly one engine call, the close of the handle held, when a
handle was held, and none when the handle was null, so that `close; close` is
`close`; destroying a connection makes no engine call and so closes nothing. -/
theorem connection_lifecycle {σ : Type} (E : Engine σ) (c : SQLite) (w : World σ) :
    SQLite.create.db = 0 ∧
    (SQLite.close E c w).1.db = 0 ∧
    (SQLite.close E c w).2.trace = w.trace ++ (if c.db = 0 then [] else [Call.close c.db]) ∧
    (SQLite.close E c w).2.eng = (if c.db = 0 then w.eng else (E.close w.eng c.db).2) ∧
    SQLite.close E (SQLite.close E c w).1 (SQLite.close E c w).2 = SQLite.close E c w ∧
    (SQLite.destroy E c w).trace = w.trace ∧
    (SQLite.destroy E c w).eng = w.eng := by
  by_cases hc : c.db = 0 <;> simp [SQLite.create, SQLite.close, SQLite.destroy, World.call, hc]

/-! ## Binding -/

/-- An `int` value is stored in an `int` unchanged. -/
theorem wrapInt32_of_range (x : Int) (hlo : INT_MIN ≤ x) (hhi : x ≤ INT_MAX) :
    wrapInt32 x = x := by
  unfold wrapInt32
  unfold INT_MIN at hlo
  unfold INT_MAX at hhi
  omega

/-- Whatever the engine answered, `bind_check` leaves the object and the world alone. -/
theorem bind_check_snd {σ : Type} (E : Engine σ) (rc : Int) (s : Statement) (w : World σ) :
    (Statement.bind_check E rc s w).2 = (s, w) := by
  unfold Statement.bind_check
  split <;> rfl

/-- The outcome of `bind_check` is a return exactly when the engine answered
`SQLITE_OK`, and a `"bind"` exception otherwise. -/
theorem bind_check_fst {σ : Type} (E : Engine σ) (rc : Int) (s : Statement) (w : World σ) :
    (Statement.bind_check E rc s w).1 =
      if rc = SQLITE_OK then .ok ()
      else .error (.sqlite (Exception.of_stmt E w.eng "bind" s.stmt)) := by
  unfold Statement.bind_check
  split <;> simp_all

/-- Every single-value `bind` call, whatever its overload and its outcome, advances
the cursor by one `int` increment, keeps the handle, and makes exactly one engine
call: the bind call for its argument at the new cursor. -/
theorem bind1_effect {σ : Type} (E : Engine σ) (a : BindArg) (s : Statement) (w : World σ) :
    (Statement.bind1 E a s w).2.1 = { stmt := s.stmt, bi := wrapInt32 (s.bi + 1) } ∧
    (Statement.bind1 E a s w).2.2.trace =
      w.trace ++ [a.call s.stmt (wrapInt32 (s.bi + 1))] := by
  cases a <;>
    simp [Statement.bind1, Statement.bind_int, Statement.bind_double,
      Statement.bind_int64, Statement.bind_uint64, Statement.bind_wstring,
      Statement.bind_blob, Statement.bind_null, Statement.bind_uint, Statement.bind_long,
      Statement.bind_ulong, Statement.bind_long_double, bind_check_snd, World.call,
      BindArg.call]

/-- The outcome of `bind_check` is a return or a `"bind"` exception. -/
theorem bind_check_outcome {σ : Type} (E : Engine σ) (rc : Int) (s : Statement)
    (w : World σ) :
    (Statement.bind_check E rc s w).1 = .ok () ∨
    ∃ x, (Statement.bind_check E rc s w).1 = .error (.sqlite x) ∧ x.op = "bind" := by
  rw [bind_check_fst]
  split
  · exact Or.inl rfl
  · exact Or.inr ⟨_, rfl, rfl⟩

/-- The outcome of a single-value `bind` call is a return or a `"bind"` exception. -/
theorem bind1_outcome {σ : Type} (E : Engine σ) (a : BindArg) (s : Statement) (w : World σ) :
    (Statement.bind1 E a s w).1 = .ok () ∨
    ∃ x, (Statement.bind1 E a s w).1 = .error (.sqlite x) ∧ x.op = "bind" := by
  cases a <;>
    simp only [Statement.bind1, Statement.bind_int, Statement.bind_double,
      Statement.bind_int64, Statement.bind_uint64, Statement.bind_wstring,
      Statement.bind_blob, Statement.bind_null, Statement.bind_uint, Statement.bind_long,
      Statement.bind_ulong, Statement.bind_long_double] <;>
    exact bind_check_outcome E _ _ _

/-- The variadic `bind` computes what the sequence of single-value calls computes. -/
theorem bind_eq_bind_each {σ : Type} (E : Engine σ) :
    ∀ (args : List BindArg) (s : Statement) (w : World σ),
      Statement.bind E args s w = Statement.bind_each E args s w
  | [], s, w => by simp [Statement.bind, Statement.bind_each]
  | [a], s, w => by
    simp only [Statement.bind, Statement.bind_each]
    rcases h : Statement.bind1 E a s w with ⟨_ | _, s1, w1⟩ <;> simp
  | a :: b :: args, s, w => by
    simp only [Statement.bind, Statement.bind_each]
    rcases h : Statement.bind1 E a s w with ⟨_ | _, s1, w1⟩
    · simp
    · simp only []
      rcases h2 : Statement.bind1 E b s1 w1 with ⟨_ | _, s2, w2⟩
      · simp
      · simp only []
        exact bind_eq_bind_each E args s2 w2

/-- The outcome of a sequence of single-value `bind` calls is a return or a `"bind"`
exception. -/
theorem bind_each_outcome {σ : Type} (E : Engine σ) :
    ∀ (args : List BindArg) (s : Statement) (w : World σ),
      (Statement.bind_each E args s w).1 = .ok () ∨
      ∃ x, (Statement.bind_each E args s w).1 = .error (.sqlite x) ∧ x.op = "bind"
  | [], s, w => by simp [Statement.bind_each]
  | a :: rest, s, w => by
    simp only [Statement.bind_each]
    have h1 := bind1_outcome E a s w
    rcases h : Statement.bind1 E a s w with ⟨_ | _, s1, w1⟩
    · rw [h] at h1
      simpa using h1
    · simp only []
      exact bind_each_outcome E rest s1 w1

/-- C2: the variadic `bind (a1, ..., aN)` and the `N` single-value calls
`bind (a1); ...; bind (aN);` end in the same result: the same outcome (return, or
the exception of the first failing argument, after which no argument is bound),
the same `Statement` object (so the same bind cursor) and the same world (the same
engine calls in the same order, and the same engine state). The outcome is a return
or a `"bind"` exception. -/
theorem bind_variadic_eq_sequential {σ : Type} (E : Engine σ) (args : List BindArg)
    (s : Statement) (w : World σ) :
    Statement.bind E args s w = Statement.bind_each E args s w ∧
    ((Statement.bind E args s w).1 = .ok () ∨
      ∃ x, (Statement.bind E args s w).1 = .error (.sqlite x) ∧ x.op = "bind") := by
  refine ⟨bind_eq_bind_each E args s w, ?_⟩
  rw [bind_eq_bind_each E args s w]
  exact bind_each_outcome E args s w

/-- The bind call for an argument is a bind call at the position given. -/
theorem call_bindPos (stmt : Handle) (pos : Int) (a : BindArg) :
    (a.call stmt pos).bindPos = some pos := by
  cases a <;> rfl

/-- After `reset` the object has cursor 0 and the trace has one more call, the engine
reset, whether `reset` returns or throws. -/
theorem reset_effect {σ : Type} (E : Engine σ) (s : Statement) (w : World σ) :
    (Statement.reset E s w).2.1 = { stmt := s.stmt, bi := 0 } ∧
    (Statement.reset E s w).2.2 = w.call (Call.reset s.stmt) (E.reset w.eng s.stmt).2 := by
  unfold Statement.reset
  simp only []
  split <;> exact ⟨rfl, rfl⟩

/-- C4: under the contract of the engine for `sqlite3_reset` (it reports `SQLITE_OK`
when the step before it reported done), `next` performs one engine step, and: if the
step reports `SQLITE_ROW`, `next` returns `true` and leaves the object, so the bind
cursor, unchanged; if it reports `SQLITE_DONE`, `next` resets the statement (the
engine reset is invoked after the step, the bind cursor becomes 0) and returns
`false`; for every other status `next` throws a `"step"` exception, built from the
engine state the step left. After `next` has returned `false` the object is what an
explicit `reset ()` leaves, and a following `bind` binds at position 1. -/
theorem next_contract {σ : Type} (E : Engine σ) (s : Statement) (w : World σ)
    (hreset : (E.step w.eng s.stmt).1 = SQLITE_DONE →
      (E.reset (E.step w.eng s.stmt).2 s.stmt).1 = SQLITE_OK) :
    ((E.step w.eng s.stmt).1 = SQLITE_ROW →
      Statement.next E s w =
        (.ok true, s, w.call (Call.step s.stmt) (E.step w.eng s.stmt).2)) ∧
    ((E.step w.eng s.stmt).1 = SQLITE_DONE →
      Statement.next E s w =
        (.ok false, { stmt := s.stmt, bi := 0 },
          { eng := (E.reset (E.step w.eng s.stmt).2 s.stmt).2
            trace := w.trace ++ [Call.step s.stmt, Call.reset s.stmt] })) ∧
    ((E.step w.eng s.stmt).1 ≠ SQLITE_ROW → (E.step w.eng s.stmt).1 ≠ SQLITE_DONE →
      Statement.next E s w =
        (.error (.sqlite (Exception.of_stmt E (E.step w.eng s.stmt).2 "step" s.stmt)), s,
          w.call (Call.step s.stmt) (E.step w.eng s.stmt).2) ∧
      (Exception.of_stmt E (E.step w.eng s.stmt).2 "step" s.stmt).op = "step") ∧
    ((Statement.next E s w).1 = .ok false →
      (Statement.next E s w).2.1 = (Statement.reset E s w).2.1 ∧
      ∀ a : BindArg, ∃ c,
        (Statement.bind1 E a (Statement.next E s w).2.1 (Statement.next E s w).2.2).2.2.trace =
          (Statement.next E s w).2.2.trace ++ [c] ∧
        c.bindPos = some 1) := by
  have hdone : (E.step w.eng s.stmt).1 = SQLITE_DONE →
      Statement.next E s w =
        (.ok false, { stmt := s.stmt, bi := 0 },
          { eng := (E.reset (E.step w.eng s.stmt).2 s.stmt).2
            trace := w.trace ++ [Call.step s.stmt, Call.reset s.stmt] }) := by
    intro h
    have hne : ¬ (SQLITE_DONE = SQLITE_ROW) := by decide
    have hok := hreset h
    simp [Statement.next, Statement.reset, World.call, h, hne, hok]
  have hrow : (E.step w.eng s.stmt).1 = SQLITE_ROW →
      Statement.next E s w =
        (.ok true, s, w.call (Call.step s.stmt) (E.step w.eng s.stmt).2) := by
    intro h
    simp [Statement.next, h]
  have hother : (E.step w.eng s.stmt).1 ≠ SQLITE_ROW → (E.step w.eng s.stmt).1 ≠ SQLITE_DONE →
      Statement.next E s w =
        (.error (.sqlite (Exception.of_stmt E (E.step w.eng s.stmt).2 "step" s.stmt)), s,
          w.call (Call.step s.stmt) (E.step w.eng s.stmt).2) := by
    intro h1 h2
    simp [Statement.next, h1, h2, World.call]
  refine ⟨hrow, hdone, fun h1 h2 => ⟨hother h1 h2, rfl⟩, ?_⟩
  intro hfalse
  have hobj : (Statement.next E s w).2.1 = { stmt := s.stmt, bi := 0 } := by
    by_cases h1 : (E.step w.eng s.stmt).1 = SQLITE_ROW
    · rw [hrow h1] at hfalse
      simp at hfalse
    · by_cases h2 : (E.step w.eng s.stmt).1 = SQLITE_DONE
      · rw [hdone h2]
      · rw [hother h1 h2] at hfalse
        cases hfalse
  refine ⟨by rw [hobj, (reset_effect E s w).1], ?_⟩
  intro a
  have hb := bind1_effect E a (Statement.next E s w).2.1 (Statement.next E s w).2.2
  refine ⟨_, hb.2, ?_⟩
  rw [call_bindPos, hobj]
  rfl

/-- Witness of `next_contract`: a step that reports a row; a step that reports done,
followed by the reset (the step and the reset each use up one status of the
script); a step that reports an error; and the bind that follows a `next` that
returned `false`. -/
theorem next_contract_witness :
    ((scriptedEngine.step (⟨[100, 0, 7], []⟩ : Script) 21).1 = SQLITE_ROW ∧
      Statement.next scriptedEngine { stmt := 21, bi := 2 }
        { eng := ⟨[100, 0, 7], []⟩, trace := [] } =
        (.ok true, { stmt := 21, bi := 2 },
          { eng := ⟨[0, 7], []⟩, trace := [Call.step 21] })) ∧
    ((scriptedEngine.step (⟨[101, 0, 7], []⟩ : Script) 21).1 = SQLITE_DONE ∧
      Statement.next scriptedEngine { stmt := 21, bi := 2 }
        { eng := ⟨[101, 0, 7], []⟩, trace := [] } =
        (.ok false, { stmt := 21, bi := 0 },
          { eng := ⟨[7], []⟩, trace := [Call.step 21, Call.reset 21] })) ∧
    ((scriptedEngine.step (⟨[1, 0, 7], []⟩ : Script) 21).1 ≠ SQLITE_ROW ∧
      (scriptedEngine.step (⟨[1, 0, 7], []⟩ : Script) 21).1 ≠ SQLITE_DONE ∧
      Statement.next scriptedEngine { stmt := 21, bi := 2 }
        { eng := ⟨[1, 0, 7], []⟩, trace := [] } =
        (.error (.sqlite (Exception.of_stmt scriptedEngine ⟨[0, 7], []⟩ "step" 21)),
          { stmt := 21, bi := 2 }, { eng := ⟨[0, 7], []⟩, trace := [Call.step 21] })) ∧
    ((Statement.next scriptedEngine { stmt := 21, bi := 2 }
        { eng := ⟨[101, 0, 7], []⟩, trace := [] }).1 = .ok false ∧
      ∃ c, (Statement.bind1 scriptedEngine BindArg.nullptr
          (Statement.next scriptedEngine { stmt := 21, bi := 2 }
            { eng := ⟨[101, 0, 7], []⟩, trace := [] }).2.1
          (Statement.next scriptedEngine { stmt := 21, bi := 2 }
            { eng := ⟨[101, 0, 7], []⟩, trace := [] }).2.2).2.2.trace =
          (Statement.next scriptedEngine { stmt := 21, bi := 2 }
            { eng := ⟨[101, 0, 7], []⟩, trace := [] }).2.2.trace ++ [c] ∧
        c.bindPos = some 1) :=
  ⟨⟨by decide,
    (next_contract scriptedEngine { stmt := 21, bi := 2 }
      { eng := ⟨[100, 0, 7], []⟩, trace := [] } (by decide)).1 (by decide)⟩,
   ⟨by decide,
    (next_contract scriptedEngine { stmt := 21, bi := 2 }
      { eng := ⟨[101, 0, 7], []⟩, trace := [] } (by decide)).2.1 (by decide)⟩,
   ⟨by decide, by decide,
    ((next_contract scriptedEngine { stmt := 21, bi := 2 }
      { eng := ⟨[1, 0, 7], []⟩, trace := [] } (by decide)).2.2.1 (by decide) (by decide)).1⟩,
   ⟨by decide,
    ((next_contract scriptedEngine { stmt := 21, bi := 2 }
      { eng := ⟨[101, 0, 7], []⟩, trace := [] } (by decide)).2.2.2 (by decide)).2
      BindArg.nullptr⟩⟩

/-! ## Columns by name -/

/-- The counter of the name loop is 0 exactly when the loop variable has reached `n`. -/
theorem loop_count_zero (i n : Int) (hi : INT_MIN ≤ i ∧ i ≤ INT_MAX)
    (hn : INT_MIN ≤ n ∧ n ≤ INT_MAX) :
    ((n - i) % 4294967296).toNat = 0 ↔ i = n := by
  unfold INT_MIN INT_MAX at hi hn
  omega

/-- While the loop variable differs from `n`, the increment `++i` lowers the counter
of the name loop by one. -/
theorem loop_count_succ (i n : Int) (hi : INT_MIN ≤ i ∧ i ≤ INT_MAX)
    (hn : INT_MIN ≤ n ∧ n ≤ INT_MAX) (hne : i ≠ n) :
    ((n - i) % 4294967296).toNat = ((n - wrapInt32 (i + 1)) % 4294967296).toNat + 1 := by
  unfold INT_MIN INT_MAX at hi hn
  unfold wrapInt32
  omega

/-- The loop of `get <T> (name)` started at column `i` with no column of that name
from `i` on: it ends in the `throw`. -/
theorem get_name_loop_miss {σ α : Type} (E : Engine σ) (getT : Statement → σ → Int → α)
    (column : WString) (s : Statement) (st : σ) (names : List WString)
    (hn : ∀ (i : Nat) (h : i < names.length), Statement.name E s st (i : Int) = .ok names[i])
    (hlen : (names.length : Int) ≤ INT_MAX) :
    ∀ (k i : Nat), i + k = names.length →
      (∀ (j : Nat) (h : j < names.length), i ≤ j → names[j] ≠ column) →
      Statement.get_name_loop E getT column s st k (i : Int) =
        .error (.sqlite (Exception.of_stmt E st "no such column" s.stmt))
  | 0, _, _, _ => by simp [Statement.get_name_loop]
  | k + 1, i, hik, hmiss => by
    have hi : i < names.length := by omega
    have hne : ¬ (column = names[i]) := fun h => hmiss i hi (le_refl i) h.symm
    have hw : wrapInt32 ((i : Int) + 1) = ((i + 1 : Nat) : Int) := by
      rw [wrapInt32_of_range _ (by unfold INT_MIN; omega) (by omega)]
      simp
    simp only [Statement.get_name_loop, hn i hi, hne, if_false, hw]
    exact get_name_loop_miss E getT column s st names hn hlen k (i + 1) (by omega)
      (fun j h hj => hmiss j h (by omega))

/-- The loop of `get <T> (name)` started at column `i` when `m` is the first column
from `i` on with that name: it returns `get <T> (m)`. -/
theorem get_name_loop_hit {σ α : Type} (E : Engine σ) (getT : Statement → σ → Int → α)
    (column : WString) (s : Statement) (st : σ) (names : List WString)
    (hn : ∀ (i : Nat) (h : i < names.length), Statement.name E s st (i : Int) = .ok names[i])
    (hlen : (names.length : Int) ≤ INT_MAX) (m : Nat) (hm : m < names.length)
    (hcol : names[m] = column) :
    ∀ (k i : Nat), i + k = names.length → i ≤ m →
      (∀ (j : Nat) (h : j < names.length), i ≤ j → j < m → names[j] ≠ column) →
      Statement.get_name_loop E getT column s st k (i : Int) = .ok (getT s st (m : Int))
  | 0, i, hik, him, _ => by omega
  | k + 1, i, hik, him, hfirst => by
    have hi : i < names.length := by omega
    by_cases heq : i = m
    · subst heq
      simp [Statement.get_name_loop, hn i hi, hcol]
    · have hne : ¬ (column = names[i]) := fun h => hfirst i hi (le_refl i) (by omega) h.symm
      have hw : wrapInt32 ((i : Int) + 1) = ((i + 1 : Nat) : Int) := by
        rw [wrapInt32_of_range _ (by unfold INT_MIN; omega) (by omega)]
        simp
      simp only [Statement.get_name_loop, hn i hi, hne, if_false, hw]
      exact get_name_loop_hit E getT column s st names hn hlen m hm hcol k (i + 1) (by omega)
        (by omega) (fun j h hj hjm => hfirst j h (by omega) hjm)

/-- C5: for a statement whose `width ()` is `w` (an `int`, so at most `INT_MAX`) and
whose column names, as `name (i)` returns them, are `names[0], ..., names[w - 1]`,
`get <T> (column)` throws the
`"no such column"` exception if and only if no index below `w` has a name equal to
`column`; otherwise it returns `get <T> (m)` for the smallest index `m` whose name
equals `column`. -/
theorem get_by_name_contract {σ α : Type} (E : Engine σ) (getT : Statement → σ → Int → α)
    (column : WString) (s : Statement) (st : σ) (names : List WString)
    (hw : Statement.width E s st = (names.length : Int))
    (hint : (names.length : Int) ≤ INT_MAX)
    (hn : ∀ (i : Nat) (h : i < names.length),
      Statement.name E s st (i : Int) = .ok names[i]) :
    ((∃ x, Statement.get_name E getT column s st = .error (.sqlite x) ∧
        x.op = "no such column") ↔
      ∀ (i : Nat) (h : i < names.length), names[i] ≠ column) ∧
    (∀ (m : Nat) (h : m < names.length), names[m] = column →
      (∀ (j : Nat) (hj : j < m), names[j] ≠ column) →
      Statement.get_name E getT column s st = .ok (getT s st (m : Int))) := by
  have hcount : (((names.length : Int) - 0) % 4294967296).toNat = names.length := by
    unfold INT_MAX at hint
    omega
  have hloop : Statement.get_name E getT column s st =
      Statement.get_name_loop E getT column s st names.length ((0 : Nat) : Int) := by
    simp only [Statement.get_name, hw, hcount]
    rfl
  have hhit : ∀ (m : Nat) (h : m < names.length), names[m] = column →
      (∀ (j : Nat) (hj : j < m), names[j] ≠ column) →
      Statement.get_name E getT column s st = .ok (getT s st (m : Int)) := by
    intro m hm hcol hfirst
    rw [hloop]
    exact get_name_loop_hit E getT column s st names hn hint m hm hcol names.length 0
      (by omega) (by omega) (fun j _ _ hjm => hfirst j hjm)
  refine ⟨⟨?_, ?_⟩, hhit⟩
  · rintro ⟨x, hx, _⟩ i hi hcol
    have hex : ∃ m, ∃ h : m < names.length, names[m] = column := ⟨i, hi, hcol⟩
    classical
    obtain ⟨hm, hmcol⟩ := Nat.find_spec hex
    have hfirst : ∀ (j : Nat) (hj : j < Nat.find hex), names[j] ≠ column := by
      intro j hj hjc
      exact Nat.find_min hex hj ⟨by omega, hjc⟩
    rw [hhit (Nat.find hex) hm hmcol hfirst] at hx
    cases hx
  · intro hmiss
    refine ⟨Exception.of_stmt E st "no such column" s.stmt, ?_, rfl⟩
    rw [hloop]
    exact get_name_loop_miss E getT column s st names hn hint names.length 0 (by omega)
      (fun j h _ => hmiss j h)

/-- Witness of `get_by_name_contract`: with the column names `b`, `a`, `a` (98, 97,
97) the name `a` is found at index 1, the first of its two columns. -/
theorem get_by_name_contract_witness :
    Statement.get_name scriptedEngine (Statement.get_int scriptedEngine) [97]
      { stmt := 21, bi := 0 } (⟨[], [[98], [97], [97]]⟩ : Script) =
      .ok (Statement.get_int scriptedEngine { stmt := 21, bi := 0 }
        (⟨[], [[98], [97], [97]]⟩ : Script) ((1 : Nat) : Int)) :=
  (get_by_name_contract scriptedEngine (Statement.get_int scriptedEngine) [97]
    { stmt := 21, bi := 0 } (⟨[], [[98], [97], [97]]⟩ : Script) [[98], [97], [97]]
    (by decide) (by decide) (by decide)).2 1 (by decide) (by decide) (by decide)

/-! ## One-shot queries -/

/-- In the parameter engine, binding a blob whose `int` length is not negative
succeeds and stores the first `n` bytes at the pointer passed. -/
theorem param_bind_blob (nullForEmpty : Bool) (B : Bytes) (s : Statement)
    (w : World ParamStore) (hn : 0 ≤ wrapInt32 B.length) :
    Statement.bind_blob (paramEngine nullForEmpty) B s w =
      (.ok (), { stmt := s.stmt, bi := wrapInt32 (s.bi + 1) },
        { eng := (wrapInt32 (s.bi + 1),
            Cell.blob ((if B.isEmpty then Statement.bind_blob_empty else B).take
              (wrapInt32 B.length).toNat)) :: w.eng
          trace := w.trace ++ [Call.bind_blob s.stmt (wrapInt32 (s.bi + 1))
            (some (if B.isEmpty then Statement.bind_blob_empty else B))
            (wrapInt32 B.length)] }) := by
  have hlt : ¬ (wrapInt32 B.length < 0) := by omega
  simp [Statement.bind_blob, Statement.bind_check, paramEngine, World.call, hlt, SQLITE_OK]

/-- In the parameter engine, the column that carries a blob bound last reads back as
that blob, and is not null. -/
theorem param_read_blob (nullForEmpty : Bool) (b : Bytes) (s : Statement) (pos : Int)
    (st : ParamStore) :
    Statement.get_blob (paramEngine nullForEmpty) s ((pos, Cell.blob b) :: st) (pos - 1) = b ∧
    Statement.null (paramEngine nullForEmpty) s ((pos, Cell.blob b) :: st) (pos - 1) = false := by
  constructor
  · simp only [Statement.get_blob, paramEngine, ParamStore.cell, sub_add_cancel, List.find?_cons,
      decide_True]
    by_cases hb : (b.isEmpty && nullForEmpty) = true
    · simp only [hb, if_true]
      simp only [Bool.and_eq_true, List.isEmpty_iff] at hb
      exact hb.1.symm
    · simp [hb]
  · simp [Statement.null, paramEngine, ParamStore.cell, SQLITE_BLOB, SQLITE_NULL]

/-- In the parameter engine a step produces a row and leaves the bindings alone. -/
theorem param_next (nullForEmpty : Bool) (s : Statement) (w : World ParamStore) :
    Statement.next (paramEngine nullForEmpty) s w =
      (.ok true, s, { eng := w.eng, trace := w.trace ++ [Call.step s.stmt] }) := by
  simp [Statement.next, paramEngine, World.call]

/-- C9, as the claim states it: for a byte sequence of 4294967297 zero bytes the
length passed to the engine is 1, not the length of the sequence; the bind succeeds,
and reading the column back gives one byte, not the sequence bound. -/
theorem blob_length_truncated :
    (Statement.bind_blob (paramEngine false) (List.replicate 4294967297 0)
      { stmt := 21, bi := 0 } { eng := [], trace := [] }).1 = .ok () ∧
    (Statement.bind_blob (paramEngine false) (List.replicate 4294967297 0)
      { stmt := 21, bi := 0 } { eng := [], trace := [] }).2.2.trace =
        [Call.bind_blob 21 1 (some (List.replicate 4294967297 0)) 1] ∧
    Statement.get_blob (paramEngine false) { stmt := 21, bi := 1 }
      (Statement.then_next (paramEngine false)
        (Statement.bind_blob (paramEngine false) (List.replicate 4294967297 0)
          { stmt := 21, bi := 0 } { eng := [], trace := [] })).2.2.eng 0 = [0] ∧
    Statement.get_blob (paramEngine false) { stmt := 21, bi := 1 }
      (Statement.then_next (paramEngine false)
        (Statement.bind_blob (paramEngine false) (List.replicate 4294967297 0)
          { stmt := 21, bi := 0 } { eng := [], trace := [] })).2.2.eng 0 ≠
        List.replicate 4294967297 0 := by
  have hlen : wrapInt32 ((List.replicate 4294967297 (0 : Fin 256)).length) = 1 := by
    rw [List.length_replicate]
    decide
  have hpos : wrapInt32 ((0 : Int) + 1) = 1 := by decide
  have hne : (List.replicate 4294967297 (0 : Fin 256)).isEmpty = false := by
    rw [List.isEmpty_eq_false]
    intro h
    have := congrArg List.length h
    rw [List.length_replicate] at this
    exact absurd this (by decide)
  have htake : (List.replicate 4294967297 (0 : Fin 256)).take 1 = [0] := by
    rw [List.take_replicate]
    rfl
  have hb := param_bind_blob false (List.replicate 4294967297 0) { stmt := 21, bi := 0 }
    { eng := [], trace := [] } (by rw [hlen]; decide)
  simp only [hlen, hpos, hne, Bool.false_eq_true, if_false, htake, List.nil_append] at hb
  have hread := (param_read_blob false [0] { stmt := 21, bi := 1 } 1 []).1
  simp only [sub_self] at hread
  rw [Statement.then_next, hb, param_next]
  refine ⟨rfl, ?_, hread, ?_⟩
  · have h1 : Int.toNat 1 = 1 := rfl
    simp only [h1, htake]
  · have h1 : Int.toNat 1 = 1 := rfl
    simp only [h1, htake] at hread ⊢
    rw [hread]
    intro h
    have := congrArg List.length h
    rw [List.length_replicate] at this
    exact absurd this (by decide)

/-- In the parameter engine, binding `nullptr` succeeds and the column that carries
the parameter is null. -/
theorem param_bind_null (nullForEmpty : Bool) (s : Statement) (w : World ParamStore) :
    Statement.bind_null (paramEngine nullForEmpty) s w =
      (.ok (), { stmt := s.stmt, bi := wrapInt32 (s.bi + 1) },
        { eng := (wrapInt32 (s.bi + 1), Cell.null) :: w.eng
          trace := w.trace ++ [Call.bind_null s.stmt (wrapInt32 (s.bi + 1))] }) := by
  simp [Statement.bind_null, Statement.bind_check, paramEngine, World.call, SQLITE_OK]

/-- C9, amended: for every byte sequence `B` of at most `INT_MAX` bytes, the empty
sequence included, `bind (B)` passes the engine a non-null data pointer and the
length of `B`; in the parameter engine (a column read returns the bound bytes, and
may give a null data pointer for a zero-length blob) the bind succeeds, and after
the step the column that carries the parameter reads back with
`get <std::vector <unsigned char>>` as `B`, with `null` false; after `bind (nullptr)`
the column that carries the parameter has `null` true. -/
theorem blob_round_trip (nullForEmpty : Bool) (B : Bytes) (s : Statement)
    (w : World ParamStore) (hB : (B.length : Int) ≤ INT_MAX) :
    (Statement.bind_blob (paramEngine nullForEmpty) B s w).1 = .ok () ∧
    (∃ mem, (Statement.bind_blob (paramEngine nullForEmpty) B s w).2.2.trace =
      w.trace ++ [Call.bind_blob s.stmt
        (Statement.bind_blob (paramEngine nullForEmpty) B s w).2.1.bi (some mem)
        (B.length : Int)]) ∧
    (Statement.then_next (paramEngine nullForEmpty)
      (Statement.bind_blob (paramEngine nullForEmpty) B s w)).1 = .ok true ∧
    Statement.get_blob (paramEngine nullForEmpty)
      (Statement.then_next (paramEngine nullForEmpty)
        (Statement.bind_blob (paramEngine nullForEmpty) B s w)).2.1
      (Statement.then_next (paramEngine nullForEmpty)
        (Statement.bind_blob (paramEngine nullForEmpty) B s w)).2.2.eng
      ((Statement.then_next (paramEngine nullForEmpty)
        (Statement.bind_blob (paramEngine nullForEmpty) B s w)).2.1.bi - 1) = B ∧
    Statement.null (paramEngine nullForEmpty)
      (Statement.then_next (paramEngine nullForEmpty)
        (Statement.bind_blob (paramEngine nullForEmpty) B s w)).2.1
      (Statement.then_next (paramEngine nullForEmpty)
        (Statement.bind_blob (paramEngine nullForEmpty) B s w)).2.2.eng
      ((Statement.then_next (paramEngine nullForEmpty)
        (Statement.bind_blob (paramEngine nullForEmpty) B s w)).2.1.bi - 1) = false ∧
    (Statement.then_next (paramEngine nullForEmpty)
      (Statement.bind_null (paramEngine nullForEmpty) s w)).1 = .ok true ∧
    Statement.null (paramEngine nullForEmpty)
      (Statement.then_next (paramEngine nullForEmpty)
        (Statement.bind_null (paramEngine nullForEmpty) s w)).2.1
      (Statement.then_next (paramEngine nullForEmpty)
        (Statement.bind_null (paramEngine nullForEmpty) s w)).2.2.eng
      ((Statement.then_next (paramEngine nullForEmpty)
        (Statement.bind_null (paramEngine nullForEmpty) s w)).2.1.bi - 1) = true := by
  have hlen : wrapInt32 (B.length : Int) = (B.length : Int) :=
    wrapInt32_of_range _ (by unfold INT_MIN; omega) hB
  have htake : (if B.isEmpty then Statement.bind_blob_empty else B).take
      (wrapInt32 (B.length : Int)).toNat = B := by
    rw [hlen, Int.toNat_ofNat]
    cases B with
    | nil => rfl
    | cons b rest => simp
  have hb := param_bind_blob nullForEmpty B s w (by rw [hlen]; omega)
  rw [htake, hlen] at hb
  have hread := param_read_blob nullForEmpty B
    { stmt := s.stmt, bi := wrapInt32 (s.bi + 1) } (wrapInt32 (s.bi + 1)) w.eng
  simp only [Statement.then_next, hb, param_next, param_bind_null]
  refine ⟨trivial, ⟨_, rfl⟩, trivial, hread.1, hread.2, trivial, ?_⟩
  simp [Statement.null, paramEngine, ParamStore.cell, SQLITE_NULL]

/-- Witness of `blob_round_trip`: the empty blob, with an engine that gives a null
data pointer for a zero-length blob, reads back as the empty blob and is not null. -/
theorem blob_round_trip_witness :
    Statement.get_blob (paramEngine true)
      (Statement.then_next (paramEngine true)
        (Statement.bind_blob (paramEngine true) [] { stmt := 21, bi := 0 }
          { eng := [], trace := [] })).2.1
      (Statement.then_next (paramEngine true)
        (Statement.bind_blob (paramEngine true) [] { stmt := 21, bi := 0 }
          { eng := [], trace := [] })).2.2.eng
      ((Statement.then_next (paramEngine true)
        (Statement.bind_blob (paramEngine true) [] { stmt := 21, bi := 0 }
          { eng := [], trace := [] })).2.1.bi - 1) = [] ∧
    Statement.null (paramEngine true)
      (Statement.then_next (paramEngine true)
        (Statement.bind_blob (paramEngine true) [] { stmt := 21, bi := 0 }
          { eng := [], trace := [] })).2.1
      (Statement.then_next (paramEngine true)
        (Statement.bind_blob (paramEngine true) [] { stmt := 21, bi := 0 }
          { eng := [], trace := [] })).2.2.eng
      ((Statement.then_next (paramEngine true)
        (Statement.bind_blob (paramEngine true) [] { stmt := 21, bi := 0 }
          { eng := [], trace := [] })).2.1.bi - 1) = false :=
  ⟨(blob_round_trip true [] { stmt := 21, bi := 0 } { eng := [], trace := [] }
      (by decide)).2.2.2.1,
   (blob_round_trip true [] { stmt := 21, bi := 0 } { eng := [], trace := [] }
      (by decide)).2.2.2.2.1⟩

end SQLiteWrapper
